import Mathlib

/-!
Verification development for the `reshape` action-execution core:
a shallow embedding of `src/migrations/create_table.rs` (the `CreateTable`
reference action) and the `Conn` execution surface of `src/db.rs`,
with theorems settling the specified properties of the action lifecycle.
-/

namespace Reshape

/-- `Column` — Modelled from the spec: the `Column` struct lives in
`crate::migrations` which is not part of the reviewed sources; spec §3
("name, data type, nullable flag, optional default expression, optional
generated-column expression") together with the field accesses in
`CreateTable::run` (`column.name`, `column.data_type`, `column.default`,
`column.nullable`, `column.generated`) fixes its fields. -/
structure Column where
  name : String
  data_type : String
  nullable : Bool
  default : Option String
  generated : Option String
deriving Repr, DecidableEq

/-- `ForeignKey` from `create_table.rs`: ordered local column list,
referenced table name, ordered referenced-column list. -/
structure ForeignKey where
  columns : List String
  referenced_table : String
  referenced_columns : List String
deriving Repr, DecidableEq

/-- `CreateTable` from `create_table.rs`: table name, columns,
primary-key column names, foreign keys. -/
structure CreateTable where
  name : String
  columns : List Column
  primary_key : List String
  foreign_keys : List ForeignKey
deriving Repr, DecidableEq

/-- `MigrationContext` — Modelled from the spec: §3 describes it as
"immutable for one migration's duration; opaque identifiers only".
Every lifecycle method of the reference action ignores it. -/
structure MigrationContext where
  migration_id : String
deriving Repr, DecidableEq

/-- A column of the logical schema model — Modelled from the spec:
`crate::schema::Schema` is not part of the reviewed sources; spec §4.3
mandates lookup of a table/column's current logical shape by name. -/
structure SchemaColumn where
  name : String
  data_type : String
deriving Repr, DecidableEq

/-- A table of the logical schema model (see `SchemaColumn`). -/
structure SchemaTable where
  name : String
  columns : List SchemaColumn
deriving Repr, DecidableEq

/-- `Schema` — Modelled from the spec: §4.3, a mapping from logical table
identifiers to current application-visible shape. -/
structure Schema where
  tables : List (String × SchemaTable)
deriving Repr, DecidableEq

/-- Spec §4.3: look up a table's current logical shape by name. -/
def Schema.lookupTable (s : Schema) (n : String) : Option SchemaTable :=
  (s.tables.find? (fun p => p.1 == n)).map (fun p => p.2)

/-- Spec §4.3: look up a column's current logical shape by name. -/
def Schema.lookupColumn (s : Schema) (tn cn : String) : Option SchemaColumn :=
  (s.lookupTable tn).bind (fun t => t.columns.find? (fun c => c.name == cn))

/-- Errors produced by the action lifecycle: an `anyhow` error chain is a
root cause (the database engine's message) wrapped in zero or more context
layers added by `.context(...)`. -/
inductive AnyhowError where
  | cause (msg : String)
  | context (msg : String) (inner : AnyhowError)
deriving Repr, DecidableEq

/-- The innermost (original) cause of an `anyhow` error chain. -/
def AnyhowError.rootCause : AnyhowError → String
  | .cause m => m
  | .context _ inner => inner.rootCause

/-- The `Conn` capability of `db.rs`, shallowly embedded: a connection over
an abstract session state `σ` with `run` (here `exec`) executing one
statement, either moving the session to a new state or failing with the
engine's error message. -/
structure Conn (σ : Type) where
  exec : σ → String → Except String σ

/-- The `Transaction` of `db.rs`, opaque at this scope: the reference
action's `complete` only ever produces `none` of it. -/
structure Transaction where
  id : Nat
deriving Repr, DecidableEq

/-- Outcome of a lifecycle call: its returned result, the session state
afterwards, and the trace of statements it sent to the connection. -/
structure RunOutcome (σ : Type) where
  result : Except AnyhowError Unit
  state : σ
  trace : List String
deriving Repr

/-- Rust's `Vec::<String>::join(sep)`, used by `CreateTable::run` to join
the parts of a column definition with `" "` and the definition rows with
`",\n"`. -/
def joinSep (sep : String) : List String → String
  | [] => ""
  | [x] => x
  | x :: y :: xs => x ++ sep ++ joinSep sep (y :: xs)

/-- `format!("\"{}\"", x)` — wrap an identifier in double quotes. -/
def quote (s : String) : String := "\"" ++ s ++ "\""

/-- One column definition row of `CreateTable::run` (lines 41–63): quoted
name, data type, then `DEFAULT <expr>` if a default is present, `NOT NULL`
unless nullable, `GENERATED <expr>` if a generated expression is present,
joined with single spaces. -/
def columnDefinition (column : Column) : String :=
  let parts := [quote column.name, column.data_type]
  let parts := parts ++ (match column.default with
    | some d => ["DEFAULT", d]
    | none => [])
  let parts := parts ++ (if column.nullable then [] else ["NOT NULL"])
  let parts := parts ++ (match column.generated with
    | some g => ["GENERATED", g]
    | none => [])
  joinSep " " parts

/-- The `PRIMARY KEY (...)` row of `CreateTable::run` (lines 65–72):
quoted primary-key columns joined with `", "`. -/
def primaryKeyClause (t : CreateTable) : String :=
  "PRIMARY KEY (" ++ joinSep ", " (t.primary_key.map quote) ++ ")"

/-- One `FOREIGN KEY ... REFERENCES ...` row of `CreateTable::run`
(lines 74–95), with the raw-string whitespace of the source. -/
def foreignKeyClause (fk : ForeignKey) : String :=
  "\n                FOREIGN KEY (" ++ joinSep ", " (fk.columns.map quote)
    ++ ") REFERENCES " ++ quote fk.referenced_table
    ++ " (" ++ joinSep ", " (fk.referenced_columns.map quote) ++ ")\n                "

/-- `definition_rows` of `CreateTable::run`: the column definitions in
declaration order, then the primary-key row, then one foreign-key row per
declared foreign key in declaration order. -/
def definitionRows (t : CreateTable) : List String :=
  t.columns.map columnDefinition ++ [primaryKeyClause t]
    ++ t.foreign_keys.map foreignKeyClause

/-- The single statement `CreateTable::run` sends to the connection
(lines 97–105), with the raw-string whitespace of the source. -/
def createTableStatement (t : CreateTable) : String :=
  "\n            CREATE TABLE " ++ quote t.name ++ " (\n                "
    ++ joinSep ",\n" (definitionRows t)
    ++ "\n            )\n            "

/-- The single statement `CreateTable::abort` sends to the connection
(lines 122–127): `DROP TABLE IF EXISTS <name>` with the name unquoted. -/
def dropTableStatement (t : CreateTable) : String :=
  "\n            DROP TABLE IF EXISTS " ++ t.name ++ "\n            "

/-- `CreateTable::describe`. -/
def CreateTable.describe (t : CreateTable) : String :=
  "Creating table " ++ quote t.name

/-- `CreateTable::run` (lines 35–108): builds the `CREATE TABLE` statement,
sends it through the connection, and wraps any engine error with the
context `"failed to create table"`. It consults neither the context nor
the schema and performs no validation of its own. -/
def CreateTable.run {σ : Type} (t : CreateTable) (_ctx : MigrationContext)
    (db : Conn σ) (s : σ) (_schema : Schema) : RunOutcome σ :=
  let stmt := createTableStatement t
  match db.exec s stmt with
  | .ok s2 => ⟨.ok (), s2, [stmt]⟩
  | .error e => ⟨.error (.context "failed to create table" (.cause e)), s, [stmt]⟩

/-- `CreateTable::complete` (lines 110–117): does nothing and returns
`Ok(None)`. -/
def CreateTable.complete {σ : Type} (_t : CreateTable) (_ctx : MigrationContext)
    (_db : Conn σ) (s : σ) : Except AnyhowError (Option Transaction) × σ × List String :=
  (.ok none, s, [])

/-- `CreateTable::update_schema` (line 119): empty body, the schema is
returned unchanged. -/
def CreateTable.update_schema (_t : CreateTable) (_ctx : MigrationContext)
    (schema : Schema) : Schema :=
  schema

/-- `CreateTable::abort` (lines 121–131): sends `DROP TABLE IF EXISTS`
through the connection and wraps any engine error with the context
`"failed to drop table"`. -/
def CreateTable.abort {σ : Type} (t : CreateTable) (_ctx : MigrationContext)
    (db : Conn σ) (s : σ) : RunOutcome σ :=
  let stmt := dropTableStatement t
  match db.exec s stmt with
  | .ok s2 => ⟨.ok (), s2, [stmt]⟩
  | .error e => ⟨.error (.context "failed to drop table" (.cause e)), s, [stmt]⟩

/-- Whether an `Except` value is a success. -/
def exceptOk {ε α : Type} : Except ε α → Bool
  | .ok _ => true
  | .error _ => false

/-- `a` occurs contiguously inside `b`. -/
def SubStr (a b : String) : Prop := ∃ u v, b = u ++ a ++ v

theorem SubStr.selfSub (a : String) : SubStr a a :=
  ⟨"", "", by rw [String.empty_append, String.append_empty]⟩

theorem SubStr.left {a b : String} (c : String) (h : SubStr a b) : SubStr a (c ++ b) := by
  obtain ⟨u, v, rfl⟩ := h
  exact ⟨c ++ u, v, by simp [String.append_assoc]⟩

theorem SubStr.right {a b : String} (c : String) (h : SubStr a b) : SubStr a (b ++ c) := by
  obtain ⟨u, v, rfl⟩ := h
  exact ⟨u, v ++ c, by simp [String.append_assoc]⟩

theorem SubStr.trans {a b c : String} (h1 : SubStr a b) (h2 : SubStr b c) : SubStr a c := by
  obtain ⟨u, v, rfl⟩ := h1
  obtain ⟨x, y, rfl⟩ := h2
  exact ⟨x ++ u, v ++ y, by simp [String.append_assoc]⟩

theorem subStr_joinSep (sep : String) {s : String} :
    ∀ (parts : List String), s ∈ parts → SubStr s (joinSep sep parts)
  | [], h => absurd h (List.not_mem_nil s)
  | [x], h => by
      rcases List.mem_singleton.mp h with rfl
      exact SubStr.selfSub s
  | x :: y :: xs, h => by
      rcases List.mem_cons.mp h with rfl | h2
      · exact ⟨"", sep ++ joinSep sep (y :: xs), by
          rw [String.empty_append]; simp [joinSep, String.append_assoc]⟩
      · have h3 := ((subStr_joinSep sep (y :: xs) h2).left sep).left x
        simpa [joinSep, String.append_assoc] using h3

theorem strGlue1 (a : String) : a ++ " " ++ "NOT NULL" = a ++ " NOT NULL" := by
  rw [String.append_assoc]; rfl

theorem strGlue2 (a : String) : a ++ " " ++ "DEFAULT " = a ++ " DEFAULT " := by
  rw [String.append_assoc]; rfl

theorem strGlue3 (a : String) : a ++ " " ++ "GENERATED " = a ++ " GENERATED " := by
  rw [String.append_assoc]; rfl

theorem strGlue4 (a : String) :
    a ++ " " ++ "NOT NULL GENERATED " = a ++ " NOT NULL GENERATED " := by
  rw [String.append_assoc]; rfl

theorem strGlue5 (a : String) :
    a ++ " NOT NULL" ++ " GENERATED " = a ++ " NOT NULL GENERATED " := by
  rw [String.append_assoc]; rfl

/-- The flat shape of a column definition: quoted name, type, then each
optional clause present exactly when its field demands it. -/
theorem columnDefinition_eq (c : Column) :
    columnDefinition c =
      quote c.name ++ " " ++ c.data_type
      ++ (match c.default with
          | some d => " DEFAULT " ++ d
          | none => "")
      ++ (if c.nullable then "" else " NOT NULL")
      ++ (match c.generated with
          | some g => " GENERATED " ++ g
          | none => "") := by
  obtain ⟨n, dt, nb, df, gen⟩ := c
  cases df <;> cases nb <;> cases gen <;>
    simp [columnDefinition, joinSep, ← String.append_assoc, String.append_empty,
      strGlue1, strGlue2, strGlue3, strGlue4, strGlue5]

/-- Every definition row occurs contiguously in the emitted statement. -/
theorem row_subStr_statement {t : CreateTable} {r : String}
    (h : r ∈ definitionRows t) : SubStr r (createTableStatement t) := by
  have h1 : SubStr r (joinSep ",\n" (definitionRows t)) :=
    subStr_joinSep ",\n" (definitionRows t) h
  exact (((h1.left " (\n                ").left (quote t.name)).left
      "\n            CREATE TABLE ").right "\n            )\n            "
    |>.trans (by
        refine ⟨"", "", ?_⟩
        rw [String.empty_append, String.append_empty]
        simp [createTableStatement, String.append_assoc])

/-- Head of every statement `CreateTable::run` emits. -/
def createHead : String := "\n            CREATE TABLE \""

/-- Head of every statement `CreateTable::abort` emits. -/
def dropHead : String := "\n            DROP TABLE IF EXISTS "

/-- Trailing whitespace of the drop statement's raw string. -/
def dropTail : String := "\n            "

theorem isPrefixOfApp (l r : List Char) : l.isPrefixOf (l ++ r) = true := by
  induction l with
  | nil => simp [List.isPrefixOf]
  | cons a as ih => simp [List.isPrefixOf, ih]

/-- Modelled from the spec: the backing relational engine (§2, §4.1, §6)
is an external collaborator reachable through `Conn`, not part of the
reviewed sources; §6 and §8 fix its contract on the two statement shapes
the reference action emits: `CREATE TABLE` fails on a duplicate table name
and registers the table otherwise, and `DROP TABLE IF EXISTS` always
succeeds, removing the table when present. The session state is the list
of existing table names. -/
def engineExec (tables : List String) (stmt : String) : Except String (List String) :=
  if dropHead.data.isPrefixOf stmt.data then
    let rest := stmt.data.drop dropHead.data.length
    let name : String := ⟨rest.take (rest.length - dropTail.data.length)⟩
    .ok (tables.filter (fun t => t != name))
  else if createHead.data.isPrefixOf stmt.data then
    let name : String := ⟨(stmt.data.drop createHead.data.length).takeWhile
      (fun c => c != '"')⟩
    if name ∈ tables then .error ("duplicate table " ++ name)
    else .ok (name :: tables)
  else .error "statement not recognized"

/-- A connection backed by the modelled engine (see `engineExec`). -/
def pgConn : Conn (List String) := ⟨engineExec⟩

/-- The modelled engine accepts every drop statement `abort` emits,
whatever the session state. -/
theorem engineExec_dropStmt (tables : List String) (t : CreateTable) :
    exceptOk (engineExec tables (dropTableStatement t)) = true := by
  have hdata : (dropTableStatement t).data
      = dropHead.data ++ (t.name.data ++ dropTail.data) := by
    simp [dropTableStatement, dropHead, dropTail, String.data_append,
      List.append_assoc]
  have hpre : dropHead.data.isPrefixOf (dropTableStatement t).data = true := by
    rw [hdata]; exact isPrefixOfApp _ _
  simp [engineExec, hpre, exceptOk]

/-- `abort` against the modelled engine succeeds from every state. -/
theorem abort_ok (t : CreateTable) (ctx : MigrationContext) (tables : List String) :
    (t.abort ctx pgConn tables).result = .ok () := by
  have h := engineExec_dropStmt tables t
  cases he : engineExec tables (dropTableStatement t) with
  | ok ts => simp [CreateTable.abort, pgConn, he]
  | error e => rw [he] at h; simp [exceptOk] at h

/-- The serialized form of a `CreateTable` as its derived deserializer
sees it: each field either present or absent. `#[serde(default)]` on
`foreign_keys` (create_table.rs lines 17–19) substitutes the field type's
default — the empty vector — when the field is absent; the other three
fields are required. -/
structure CreateTableRepr where
  name : Option String
  columns : Option (List Column)
  primary_key : Option (List String)
  foreign_keys : Option (List ForeignKey)
deriving Repr

/-- The derived deserializer for `CreateTable` (see `CreateTableRepr`). -/
def deserializeCreateTable (r : CreateTableRepr) : Except String CreateTable :=
  match r.name with
  | none => .error "missing field name"
  | some n =>
    match r.columns with
    | none => .error "missing field columns"
    | some cs =>
      match r.primary_key with
      | none => .error "missing field primary_key"
      | some pk => .ok ⟨n, cs, pk, r.foreign_keys.getD []⟩

/-- A migration context fixture (the reference action ignores it). -/
def ctx0 : MigrationContext := ⟨"migration-1"⟩

/-- An empty logical schema fixture. -/
def schema0 : Schema := ⟨[]⟩

/-- A connection whose engine accepts every statement. -/
def acceptConn : Conn Unit := ⟨fun s _ => .ok s⟩

/-- A connection whose engine rejects every statement with `"boom"`. -/
def failConn : Conn Unit := ⟨fun _ _ => .error "boom"⟩

/-- C1: for every `CreateTable` action with N columns, `run` issues exactly
one `CREATE TABLE` statement against the connection, whose column clause
lists all N column definitions in declaration order, followed by a
`PRIMARY KEY` clause listing the primary-key columns in their declared
order, followed by one `FOREIGN KEY ... REFERENCES ...` clause per declared
foreign key, in declaration order. -/
theorem claim_c1_run_statement_shape {σ : Type} (t : CreateTable)
    (ctx : MigrationContext) (db : Conn σ) (s : σ) (schema : Schema) :
    (t.run ctx db s schema).trace = [createTableStatement t]
    ∧ createTableStatement t =
        "\n            CREATE TABLE " ++ quote t.name ++ " (\n                "
          ++ joinSep ",\n" (definitionRows t) ++ "\n            )\n            "
    ∧ (definitionRows t).length = t.columns.length + 1 + t.foreign_keys.length
    ∧ (definitionRows t).take t.columns.length = t.columns.map columnDefinition
    ∧ (definitionRows t)[t.columns.length]? = some (primaryKeyClause t)
    ∧ (definitionRows t).drop (t.columns.length + 1)
        = t.foreign_keys.map foreignKeyClause
    ∧ primaryKeyClause t
        = "PRIMARY KEY (" ++ joinSep ", " (t.primary_key.map quote) ++ ")" := by
  refine ⟨?_, rfl, ?_, ?_, ?_, ?_, rfl⟩
  · cases hd : db.exec s (createTableStatement t) <;> simp [CreateTable.run, hd]
  · simp [definitionRows]
    omega
  · have h : t.columns.length = (t.columns.map columnDefinition).length := by
      rw [List.length_map]
    rw [definitionRows, List.append_assoc, h, List.take_left]
  · rw [definitionRows, List.append_assoc,
      show t.columns.length = (t.columns.map columnDefinition).length from
        (List.length_map _ _).symm,
      List.getElem?_append_right (Nat.le_refl _)]
    simp
  · have h : t.columns.length + 1
        = (t.columns.map columnDefinition ++ [primaryKeyClause t]).length := by
      simp
    rw [definitionRows, h, List.drop_left]

/-- C2: every column definition emitted by `run` consists of, in order:
the quoted column name, the data type, a `DEFAULT` clause iff the column
has a default expression, `NOT NULL` iff the column's nullable flag is
false, and a `GENERATED` clause iff the column has a generated
expression. -/
theorem claim_c2_column_definition (c : Column) :
    columnDefinition c =
      quote c.name ++ " " ++ c.data_type
      ++ (match c.default with
          | some d => " DEFAULT " ++ d
          | none => "")
      ++ (if c.nullable then "" else " NOT NULL")
      ++ (match c.generated with
          | some g => " GENERATED " ++ g
          | none => "") :=
  columnDefinition_eq c

/-- C7: for every `CreateTable` action, migration context and connection,
`complete` performs no database operation, leaves the session untouched
and returns `Ok(None)`. -/
theorem claim_c7_complete_noop {σ : Type} (t : CreateTable)
    (ctx : MigrationContext) (db : Conn σ) (s : σ) :
    t.complete ctx db s = (.ok none, s, []) := rfl

/-- C8: for every `CreateTable` action and migration context,
`update_schema` leaves the `Schema` completely unchanged: every table and
column lookup yields the same answer before and after the call. -/
theorem claim_c8_update_schema_frame (t : CreateTable)
    (ctx : MigrationContext) (s : Schema) :
    t.update_schema ctx s = s
    ∧ (∀ n, (t.update_schema ctx s).lookupTable n = s.lookupTable n)
    ∧ (∀ tn cn, (t.update_schema ctx s).lookupColumn tn cn = s.lookupColumn tn cn) :=
  ⟨rfl, fun _ => rfl, fun _ _ => rfl⟩

/-- C10: deserializing a `CreateTable` whose serialized form omits the
`foreign_keys` field succeeds and yields an action with an empty
foreign-key list rather than failing with a decode error. -/
theorem claim_c10_missing_foreign_keys (n : String) (cs : List Column)
    (pk : List String) :
    deserializeCreateTable ⟨some n, some cs, some pk, none⟩
      = .ok ⟨n, cs, pk, []⟩ := rfl

/-- A well-formed sample action: table "users", one column, a primary key
and one foreign key. -/
def usersTable : CreateTable :=
  ⟨"users", [⟨"id", "bigint", false, none, none⟩], ["id"],
    [⟨["id"], "accounts", ["uid"]⟩]⟩

/-- A structurally invalid sample action: its primary key names an
undeclared column and its foreign key has column lists of unequal
length. -/
def badTable : CreateTable :=
  ⟨"t", [⟨"a", "integer", true, none, none⟩], ["nope"],
    [⟨["a"], "r", ["x", "y"]⟩]⟩

/-- A sample action with an empty primary-key list. -/
def noPkTable : CreateTable :=
  ⟨"t0", [⟨"a", "text", true, none, none⟩], [], []⟩

/-- C3: the statement emitted by `run` double-quotes every identifier it
contains (table name, column names, primary-key columns, foreign-key
columns, referenced table and columns), while the statement emitted by
`abort` is `DROP TABLE IF EXISTS <name>` with the table name unquoted. -/
theorem claim_c3_quoting (t : CreateTable) :
    SubStr (quote t.name) (createTableStatement t)
    ∧ (∀ c, c ∈ t.columns → SubStr (quote c.name) (createTableStatement t))
    ∧ (∀ k, k ∈ t.primary_key → SubStr (quote k) (createTableStatement t))
    ∧ (∀ fk, fk ∈ t.foreign_keys →
        SubStr (quote fk.referenced_table) (createTableStatement t)
        ∧ (∀ c, c ∈ fk.columns → SubStr (quote c) (createTableStatement t))
        ∧ (∀ c, c ∈ fk.referenced_columns →
            SubStr (quote c) (createTableStatement t)))
    ∧ dropTableStatement t
        = "\n            DROP TABLE IF EXISTS " ++ t.name ++ "\n            " := by
  refine ⟨?_, ?_, ?_, ?_, rfl⟩
  · unfold createTableStatement
    exact ((((SubStr.selfSub _).left _).right _).right _).right _
  · intro c hc
    have h1 : SubStr (quote c.name) (columnDefinition c) := by
      rw [columnDefinition_eq]
      exact (((((SubStr.selfSub _).right _).right _).right _).right _).right _
    exact h1.trans (row_subStr_statement (List.mem_append_left _
      (List.mem_append_left _ (List.mem_map_of_mem _ hc))))
  · intro k hk
    have h1 : SubStr (quote k) (primaryKeyClause t) := by
      unfold primaryKeyClause
      exact ((subStr_joinSep ", " _ (List.mem_map_of_mem _ hk)).left _).right _
    exact h1.trans (row_subStr_statement (List.mem_append_left _
      (List.mem_append_right _ (List.mem_singleton_self _))))
  · intro fk hfk
    have hmem : foreignKeyClause fk ∈ definitionRows t :=
      List.mem_append_right _ (List.mem_map_of_mem _ hfk)
    refine ⟨?_, ?_, ?_⟩
    · have h1 : SubStr (quote fk.referenced_table) (foreignKeyClause fk) := by
        unfold foreignKeyClause
        exact ((((SubStr.selfSub _).left _).right _).right _).right _
      exact h1.trans (row_subStr_statement hmem)
    · intro c hc
      have h1 : SubStr (quote c) (foreignKeyClause fk) := by
        unfold foreignKeyClause
        exact ((((((subStr_joinSep ", " _
          (List.mem_map_of_mem _ hc)).left _).right _).right _).right _).right _).right _
      exact h1.trans (row_subStr_statement hmem)
    · intro c hc
      have h1 : SubStr (quote c) (foreignKeyClause fk) := by
        unfold foreignKeyClause
        exact ((subStr_joinSep ", " _ (List.mem_map_of_mem _ hc)).left _).right _
      exact h1.trans (row_subStr_statement hmem)

/-- C3 witness: the quoting facts instantiated on `usersTable`. -/
theorem claim_c3_quoting_witness :
    SubStr (quote "users") (createTableStatement usersTable)
    ∧ SubStr (quote "id") (createTableStatement usersTable)
    ∧ SubStr (quote "accounts") (createTableStatement usersTable)
    ∧ SubStr (quote "uid") (createTableStatement usersTable)
    ∧ dropTableStatement usersTable
        = "\n            DROP TABLE IF EXISTS " ++ "users" ++ "\n            " := by
  have H := claim_c3_quoting usersTable
  exact ⟨H.1,
    H.2.1 ⟨"id", "bigint", false, none, none⟩ (by decide),
    (H.2.2.2.1 ⟨["id"], "accounts", ["uid"]⟩ (by decide)).1,
    (H.2.2.2.1 ⟨["id"], "accounts", ["uid"]⟩ (by decide)).2.2 "uid" (by decide),
    H.2.2.2.2⟩

/-- C4: `abort` is idempotent against the modelled engine: it succeeds
from every session state (so also after a successful `abort`, after a
partial `run`, or when `run` never ran), because its drop statement is
guarded with `IF EXISTS`. -/
theorem claim_c4_abort_idempotent (t : CreateTable) (ctx : MigrationContext)
    (tables : List String) :
    (t.abort ctx pgConn tables).result = .ok ()
    ∧ (t.abort ctx pgConn ((t.abort ctx pgConn tables).state)).result = .ok () :=
  ⟨abort_ok t ctx tables, abort_ok t ctx _⟩

/-- C5: `run` performs no structural validation before issuing DDL: even
for an action whose primary key names an undeclared column or whose
foreign key has column lists of unequal length, `run` sends the
`CREATE TABLE` statement to the database, and fails only if the
connection rejects it, with no error other than the wrapped engine
error. -/
theorem claim_c5_no_validation {σ : Type} (t : CreateTable)
    (ctx : MigrationContext) (db : Conn σ) (s : σ) (schema : Schema)
    (_h : (∃ k ∈ t.primary_key, ∀ c ∈ t.columns, c.name ≠ k)
        ∨ (∃ fk ∈ t.foreign_keys,
            fk.columns.length ≠ fk.referenced_columns.length)) :
    (t.run ctx db s schema).trace = [createTableStatement t]
    ∧ exceptOk (t.run ctx db s schema).result
        = exceptOk (db.exec s (createTableStatement t))
    ∧ (∀ e, (t.run ctx db s schema).result = .error e →
        ∃ msg, db.exec s (createTableStatement t) = .error msg
          ∧ e = .context "failed to create table" (.cause msg)) := by
  cases hd : db.exec s (createTableStatement t) with
  | ok s2 => refine ⟨?_, ?_, ?_⟩ <;> simp [CreateTable.run, hd, exceptOk]
  | error msg =>
      refine ⟨by simp [CreateTable.run, hd],
        by simp [CreateTable.run, hd, exceptOk], ?_⟩
      intro e he
      refine ⟨msg, rfl, ?_⟩
      simp [CreateTable.run, hd] at he
      exact he.symm

/-- C5 witness: `badTable` is structurally invalid, yet `run` sends its
statement and succeeds against an accepting connection. -/
theorem claim_c5_no_validation_witness :
    ((∃ k ∈ badTable.primary_key, ∀ c ∈ badTable.columns, c.name ≠ k)
      ∨ (∃ fk ∈ badTable.foreign_keys,
          fk.columns.length ≠ fk.referenced_columns.length))
    ∧ (badTable.run ctx0 acceptConn () schema0).trace
        = [createTableStatement badTable]
    ∧ exceptOk (badTable.run ctx0 acceptConn () schema0).result = true := by
  have H := claim_c5_no_validation badTable ctx0 acceptConn () schema0 (by decide)
  exact ⟨by decide, H.1, by rw [H.2.1]; rfl⟩

/-- C6: `run` returns an error iff the underlying `Conn::run` fails, and
that error wraps the original cause with the context phrase
`"failed to create table"` without discarding it; likewise `abort` with
`"failed to drop table"`. -/
theorem claim_c6_error_wrapping {σ : Type} (t : CreateTable)
    (ctx : MigrationContext) (db : Conn σ) (s : σ) (schema : Schema) :
    (exceptOk (t.run ctx db s schema).result
      = exceptOk (db.exec s (createTableStatement t)))
    ∧ (∀ e, db.exec s (createTableStatement t) = .error e →
        (t.run ctx db s schema).result
          = .error (.context "failed to create table" (.cause e))
        ∧ AnyhowError.rootCause (.context "failed to create table" (.cause e)) = e)
    ∧ (exceptOk (t.abort ctx db s).result
      = exceptOk (db.exec s (dropTableStatement t)))
    ∧ (∀ e, db.exec s (dropTableStatement t) = .error e →
        (t.abort ctx db s).result
          = .error (.context "failed to drop table" (.cause e))
        ∧ AnyhowError.rootCause (.context "failed to drop table" (.cause e)) = e) := by
  refine ⟨?_, ?_, ?_, ?_⟩
  · cases hd : db.exec s (createTableStatement t) <;>
      simp [CreateTable.run, hd, exceptOk]
  · intro e he
    exact ⟨by simp [CreateTable.run, he], rfl⟩
  · cases hd : db.exec s (dropTableStatement t) <;>
      simp [CreateTable.abort, hd, exceptOk]
  · intro e he
    exact ⟨by simp [CreateTable.abort, he], rfl⟩

/-- C6 witness: against a connection failing with `"boom"`, `run` and
`abort` return exactly the wrapped error. -/
theorem claim_c6_error_wrapping_witness :
    (usersTable.run ctx0 failConn () schema0).result
      = .error (.context "failed to create table" (.cause "boom"))
    ∧ (usersTable.abort ctx0 failConn ()).result
      = .error (.context "failed to drop table" (.cause "boom")) :=
  ⟨((claim_c6_error_wrapping usersTable ctx0 failConn () schema0).2.1 "boom" rfl).1,
   ((claim_c6_error_wrapping usersTable ctx0 failConn () schema0).2.2.2 "boom" rfl).1⟩

/-- C9: `run` unconditionally appends a `PRIMARY KEY` clause: it is the
row right after the column definitions, and when the primary-key list is
empty the emitted statement contains `PRIMARY KEY ()` rather than
omitting the clause. -/
theorem claim_c9_primary_key_unconditional (t : CreateTable) :
    (definitionRows t)[t.columns.length]? = some (primaryKeyClause t)
    ∧ (t.primary_key = [] →
        primaryKeyClause t = "PRIMARY KEY ()"
        ∧ SubStr "PRIMARY KEY ()" (createTableStatement t)) := by
  constructor
  · rw [definitionRows, List.append_assoc,
      show t.columns.length = (t.columns.map columnDefinition).length from
        (List.length_map _ _).symm,
      List.getElem?_append_right (Nat.le_refl _)]
    simp
  · intro hpk
    have h1 : primaryKeyClause t = "PRIMARY KEY ()" := by
      simp [primaryKeyClause, hpk, joinSep, String.append_empty]
    have h2 : SubStr (primaryKeyClause t) (createTableStatement t) :=
      row_subStr_statement (List.mem_append_left _
        (List.mem_append_right _ (List.mem_singleton_self _)))
    rw [h1] at h2
    exact ⟨h1, h2⟩

/-- C9 witness: on a table with an empty primary-key list, the clause
`PRIMARY KEY ()` is present. -/
theorem claim_c9_primary_key_unconditional_witness :
    (definitionRows noPkTable)[1]? = some (primaryKeyClause noPkTable)
    ∧ primaryKeyClause noPkTable = "PRIMARY KEY ()"
    ∧ SubStr "PRIMARY KEY ()" (createTableStatement noPkTable) := by
  have H := claim_c9_primary_key_unconditional noPkTable
  exact ⟨H.1, (H.2 rfl).1, (H.2 rfl).2⟩

end Reshape
